import Mathlib

/-
  Verification development for the ipncidr interactive operations console.

  The embedding below translates the core of the repository
  (src/module_loader.py and src/main.py) into Lean:

  * Python dictionaries keyed by strings become association lists kept in
    insertion order (dictGet / dictInsert).
  * A loaded Python module is modelled by the data the loader inspects:
    its __name__, and its namespace members (classes and functions), each
    carrying the attributes read by inspect (declaring module, constructor
    signature, docstring, ...).
  * Machine-level behaviour of a callable is modelled by its observable
    outcome: a Python callable either returns a value or raises a message.
  * Stateful code (the ModuleLoader registry, the dispatch loop of main.py)
    is modelled by explicit state passing and a step function over a
    navigation-state type; an uncaught exception is an explicit
    Next.crashed result, and the break of the loop is Next.exited.
  * Console output and method invocations are recorded as effect lists.

  Constant menu banner text and the string arguments of input() prompts are
  modelled only where some claim depends on them (the argument-collection
  prompts); quotation marks around interpolated names in message strings
  are omitted.
-/

namespace Ipncidr

/-! ## Python dictionary primitives (string-keyed, insertion ordered) -/

def dictGet {α : Type} : List (String × α) → String → Option α
| [], _ => none
| p :: ps, k => if p.1 = k then some p.2 else dictGet ps k

def dictInsert {α : Type} (d : List (String × α)) (k : String) (v : α) :
    List (String × α) :=
  if d.any (fun p => p.1 = k) then
    d.map (fun p => if p.1 = k then (k, v) else p)
  else
    d ++ [(k, v)]

def dictKeys {α : Type} (d : List (String × α)) : List String :=
  d.map (fun p => p.1)

/-! ## Character-level string primitives

The Python string operations the console relies on (`int(...)`,
`.strip().lower()`, `.startswith('_')`, `sorted(...)`, `f"{idx}"`) are
implemented over the character list of the string, mirroring their
code-point semantics. -/

/-- `str.strip()`: drop whitespace from both ends. -/
def pyTrimChars (cs : List Char) : List Char :=
  ((cs.dropWhile Char.isWhitespace).reverse.dropWhile
    Char.isWhitespace).reverse

def digitsToNat : List Char → Nat → Nat
| [], acc => acc
| c :: cs, acc => digitsToNat cs (acc * 10 + (c.toNat - 48))

/-- Parse a non-empty all-digit character list. -/
def parseDigits (cs : List Char) : Option Nat :=
  if !(List.isEmpty cs) && cs.all Char.isDigit then some (digitsToNat cs 0)
  else none

/-- `str.strip().lower()` as a character list. -/
def pyStripLower (s : String) : List Char :=
  (pyTrimChars s.data).map Char.toLower

/-- `name.startswith('_')`. -/
def startsUnderscore (s : String) : Bool :=
  match s.data with
  | c :: _ => c = '_'
  | [] => false

/-- Lexicographic code-point order on character lists, the order Python
uses to compare strings. -/
def charListLt : List Char → List Char → Bool
| [], [] => false
| [], _ :: _ => true
| _ :: _, [] => false
| a :: as2, b :: bs => if a < b then true else if b < a then false
    else charListLt as2 bs

def strLt (s t : String) : Bool := charListLt s.data t.data

def natCharsAux : Nat → Nat → List Char
| 0, _ => []
| fuel + 1, n =>
  if n < 10 then [Char.ofNat (48 + n)]
  else natCharsAux fuel (n / 10) ++ [Char.ofNat (48 + n % 10)]

/-- Decimal rendering of a Nat (`f"{n}"`); the fuel n + 1 bounds the digit
count. -/
def natStr (n : Nat) : String := ⟨natCharsAux (n + 1) n⟩

/-- Decimal rendering of an Int (`f"{i}"`). -/
def intStr (i : Int) : String :=
  if i < 0 then "-" ++ natStr i.natAbs else natStr i.toNat

/-! ## Python values, parameters, callables

A `PyVal` is the value universe the console manipulates: operator input
strings, integer default values, and None.  `PyParam` models one entry of
`inspect.signature(...).parameters`: its name and its default
(`none` models `inspect.Parameter.empty`, i.e. a mandatory parameter). -/

inductive PyVal : Type
| str (s : String)
| int (n : Int)
| noneV
deriving DecidableEq, Repr

def showVal : PyVal → String
| .str s => s
| .int n => intStr n
| .noneV => "None"

structure PyParam : Type where
  name : String
  default : Option PyVal
deriving DecidableEq, Repr

/-- The observable behaviour of calling a Python callable with positional
and keyword arguments: it either returns a value (possibly None) or raises
an exception carrying a message. -/
structure Method : Type where
  params : List PyParam
  run : List PyVal → List (String × PyVal) → Except String (Option PyVal)

/-- A live Python object as the dispatch loop sees it: its callable,
non-underscore-filtered attributes (`dir(instance)` + `callable` checks).
Attribute names are stored unsorted; `dir()` sorting is applied at use. -/
structure Instance : Type where
  attrs : List (String × Method)

/-! ## Registry entries

`ModuleLoader._add_module_to_dict` (module_loader.py lines 134-172) builds,
for each module, a dict whose values are dict literals with exactly these
keys:
  * classes   : {'instance': instance, 'methods': class_methods, 'help': doc}
  * functions : {'function': obj, 'help': doc}
The constructors below mirror those two literals; no other key (in
particular no class_ref key) is ever stored. -/

inductive Entry : Type
| clsE (inst : Instance) (methods : List (String × Option String))
    (help : Option String)
| fnE (help : Option String)

/-- `'methods' in item_content` — true exactly for class entries. -/
def Entry.hasMethods : Entry → Bool
| .clsE _ _ _ => true
| .fnE _ => false

/-- `'function' in item_content` — true exactly for function entries. -/
def Entry.hasFunction : Entry → Bool
| .clsE _ _ _ => false
| .fnE _ => true

abbrev ModuleDict := List (String × Entry)
abbrev Registry := List (String × ModuleDict)

/-! ## The members of a loaded module

`inspect.getmembers(module)` yields the module namespace as (name, object)
pairs, sorted by name, with every name occurring once.  For a class the
loader reads `obj.__module__`, `inspect.signature(obj.__init__)`, the
result of `obj()` (does it raise, and which instance it yields),
`inspect.getmembers(obj, inspect.isfunction)` with per-method docstrings,
and `inspect.getdoc(obj)`.  For a function it reads `obj.__module__`
(actually it does not - see addMembers) and `inspect.getdoc(obj)`. -/

structure PyClass : Type where
  declModule : String
  initParams : List PyParam
  instOk : Bool
  inst : Instance
  methods : List (String × Option String)
  doc : Option String

inductive Member : Type
| cls (c : PyClass)
| fn (declModule : String) (doc : Option String)

structure PyModule : Type where
  name : String
  members : List (String × Member)

/-- Events written through `logger` by `_add_module_to_dict`, plus an
explicit record of each instantiation attempt (each evaluation of the
expression `obj()`). -/
inductive LogEvent : Type
| attempt (n : String)
| warnSkip (n : String)
| errorInst (n : String)
deriving DecidableEq, Repr

/-- module_loader.py lines 143-146:
`any(param.default == param.empty and param.name != 'self'
     for param in init_sig.parameters.values())` -/
def hasRequiredParams (ps : List PyParam) : Bool :=
  ps.any (fun p => p.default.isNone && p.name ≠ "self")

/-- The member loop of `_add_module_to_dict` (module_loader.py lines
137-171).  Member names produced by `inspect.getmembers` are unique within
a namespace, so the dict assignments `module_dict[name] = ...` are
modelled by building the dict in iteration order.  Guard mapping:
the outer test is `obj.__module__ == module.__name__` (line 140, classes
only); a class with a mandatory non-self constructor parameter is skipped
with a warning (lines 165-166); otherwise `obj()` is attempted, and on an
exception only an error is logged (lines 163-164); a function member is
stored with no declaring-module test (lines 167-171). -/
def addMembers (modName : String) : List (String × Member) →
    ModuleDict × List LogEvent
| [] => ([], [])
| (name, Member.cls c) :: rest =>
  let tl := addMembers modName rest
  if c.declModule = modName then
    if hasRequiredParams c.initParams then
      (tl.1, .warnSkip name :: tl.2)
    else if c.instOk then
      ((name, .clsE c.inst c.methods c.doc) :: tl.1, .attempt name :: tl.2)
    else
      (tl.1, .attempt name :: .errorInst name :: tl.2)
  else tl
| (name, Member.fn _ doc) :: rest =>
  let tl := addMembers modName rest
  ((name, .fnE doc) :: tl.1, tl.2)

/-- `ModuleLoader._add_module_to_dict` applied to one module: the dict the
loader stores under the module key, together with the log events. -/
def addModuleToDict (m : PyModule) : ModuleDict × List LogEvent :=
  addMembers m.name m.members

/-- The module-member name a log event is about. -/
def LogEvent.evName : LogEvent → String
| .attempt n => n
| .warnSkip n => n
| .errorInst n => n

/-- Characterization of which members the extractor catalogues, read off
the guards of `_add_module_to_dict`: every function member (the code never
checks a function member against the declaring module), and exactly the
class members whose declaring module matches, whose constructor has no
mandatory non-self parameter, and whose zero-argument instantiation
succeeds. -/
def keepMember (mn : String) : Member → Bool
| .cls c =>
  if c.declModule = mn then
    !(hasRequiredParams c.initParams) && c.instOk
  else false
| .fn _ _ => true

/-! ## The prerequisite binary gate (class BinaryChecker)

The ambient system is modelled by the data the checker consults:
which binary names `shutil.which` resolves, what `platform.system()`
returns, and which install commands exit with status 0. -/

structure SysEnv : Type where
  availableBinaries : List String
  osType : String
  installSucceeds : List String

/-- `BinaryChecker.install_binary` (module_loader.py lines 44-74): returns
`.ok` when the platform install command succeeds, `.error msg` when the
method raises RuntimeError with message msg. -/
def installBinary (sys : SysEnv) (binary : String) : Except String Unit :=
  if sys.osType = "Linux" ∨ sys.osType = "Darwin" then
    if sys.installSucceeds.contains binary then .ok ()
    else .error ("Failed to install " ++ binary)
  else if sys.osType = "Windows" then
    .error ("Please manually install " ++ binary ++ " on Windows.")
  else
    .error ("Unsupported operating system: " ++ sys.osType)

def installAll (sys : SysEnv) : List String → Except String Unit
| [] => .ok ()
| b :: bs =>
  match installBinary sys b with
  | .error e => .error e
  | .ok _ => installAll sys bs

def joinComma : List String → String
| [] => ""
| [b] => b
| b :: bs => b ++ ", " ++ joinComma bs

/-- `BinaryChecker.check_binaries` (module_loader.py lines 24-42).
`installChoice` is the operator reply to the install prompt; the source
applies `.strip().lower()` to it. -/
def checkBinaries (sys : SysEnv) (required : List String)
    (installChoice : String) : Except String Unit :=
  let missing := required.filter (fun b => !(sys.availableBinaries.contains b))
  if missing.isEmpty then .ok ()
  else if pyStripLower installChoice = ['y'] then installAll sys missing
  else .error ("Cannot proceed without required binaries: " ++ joinComma missing)

/-- The literal `self.required_binaries_per_module` table with its
`.get(module_name, [])` lookup (module_loader.py lines 81-85, 128). -/
def requiredBinariesPerModule (m : String) : List String :=
  if m = "iptables_manager" then ["iptables"]
  else if m = "ipset_manager" then ["ipset"]
  else if m = "ssh" then ["ssh"]
  else []

/-! ## The unit-loader walk (`ModuleLoader._load_modules`)

One eligible file of the walk, together with the semantic facts the load
step depends on: the module name (file stem), the registry key
(`os.path.relpath` with separators replaced by dots), whether
`exec_module` succeeds, the module contents it produces, and the operator
reply consumed if the gate prompts for this file. -/

structure FileEnt : Type where
  stem : String
  relKey : String
  parses : Bool
  content : PyModule
  installChoice : String

/-- `ModuleLoader._check_module_binaries` (module_loader.py lines 126-131). -/
def checkModuleBinaries (sys : SysEnv) (f : FileEnt) : Except String Unit :=
  let req := requiredBinariesPerModule f.stem
  if req.isEmpty then .ok ()
  else checkBinaries sys req f.installChoice

/-- The per-file body of `_load_modules` (module_loader.py lines 101-117),
iterated over the walked files.  `_check_module_binaries` is called
before the try block, so a gate failure propagates and aborts the whole
walk; only the load itself is guarded by try/except. -/
def loadModulesAux (sys : SysEnv) (reg : Registry) :
    List FileEnt → Except String Registry
| [] => .ok reg
| f :: rest =>
  match checkModuleBinaries sys f with
  | .error e => .error e
  | .ok _ =>
    let reg2 :=
      if f.parses then dictInsert reg f.relKey (addModuleToDict f.content).1
      else reg
    loadModulesAux sys reg2 rest

/-! ## The scanned filesystem and `_ensure_init_files`

A directory tree is flattened to the list of its directories (as
root-relative component paths, `[]` being the scan root itself, in
`os.walk` order) and its files (directory path × file name).  `os.walk`
visits every directory, and every directory except the root occurs as a
child `dir_name` of its walked parent, so lines 91-96 of module_loader.py
touch exactly the non-root directories. -/

structure Fs : Type where
  dirs : List (List String)
  files : List (List String × String)

/-- `ModuleLoader._ensure_init_files` (module_loader.py lines 89-96): for
every non-root directory lacking a file named __init__.py, create that
(empty) file; nothing else changes. -/
def ensureInitFiles (fs : Fs) : Fs :=
  { dirs := fs.dirs
    files := fs.files ++
      ((fs.dirs.filter (fun d =>
          !(List.isEmpty d) &&
            !(fs.files.any (fun q => q = (d, "__init__.py"))))).map
        (fun d => (d, "__init__.py"))) }

/-- File-name eligibility test of the walk (module_loader.py line 103):
`file.endswith('.py') and file != '__init__.py'`. -/
def isEligible (f : String) : Bool :=
  f.endsWith ".py" && f ≠ "__init__.py"

/-- `os.path.splitext(file)[0]`. -/
def fileStem (f : String) : String := f.dropRight 3

/-- `os.path.relpath(module_path, base_path).replace(os.path.sep, '.')`. -/
def relKeyOf (d : List String) (f : String) : String :=
  String.intercalate "." (d ++ [f])

/-- Per-file semantic environment: whether a path parses, the module it
produces, and the operator reply at a gate prompt for it. -/
structure FileSem : Type where
  parses : Bool
  content : PyModule
  installChoice : String

/-- The file enumeration of `os.walk` in `_load_modules` (lines 101-103):
for each walked directory in order, its eligible files in order. -/
def walkFiles (env : List String → String → FileSem) (fs : Fs) :
    List FileEnt :=
  fs.dirs.flatMap (fun d =>
    ((fs.files.filter (fun p => p.1 = d)).map (fun p => p.2)
        |>.filter isEligible).map
      (fun f =>
        { stem := fileStem f
          relKey := relKeyOf d f
          parses := (env d f).parses
          content := (env d f).content
          installChoice := (env d f).installChoice }))

/-- `ModuleLoader.__init__` (module_loader.py lines 78-87): build the empty
registry, ensure init files, then load modules.  The pair returned is the
resulting filesystem and the registry build outcome; the filesystem
component is produced by `_ensure_init_files` alone, since `_load_modules`
only reads the tree. -/
def moduleLoaderInit (sys : SysEnv) (env : List String → String → FileSem)
    (fs : Fs) : Fs × Except String Registry :=
  let fs2 := ensureInitFiles fs
  (fs2, loadModulesAux sys [] (walkFiles env fs2))

/-! ## `ModuleLoader.display_help` -/

/-- The loader state read by display_help:
`self.modules_dict['app']['module']`. -/
structure LoaderState : Type where
  modulesDict : Registry

/-- Python `f"{x}"` of an optional docstring: `inspect.getdoc` returns
None for a missing docstring and both dict literals store that value under
the help key, so `print` renders it as the string None. -/
def showDoc : Option String → String
| some s => s
| none => "None"

/-- Output lines for one item of the module dict
(module_loader.py lines 187-197). -/
def helpItemLines : String × Entry → List String
| (itemName, .clsE _ methods help) =>
  ["Class: " ++ itemName, showDoc help, "Methods:"] ++
    ((methods.filter (fun m => !(startsUnderscore m.1))).map
      (fun m => " - " ++ m.1 ++ ": " ++ showDoc m.2))
| (itemName, .fnE help) =>
  if !(startsUnderscore itemName) then
    ["Function: " ++ itemName, showDoc help]
  else []

/-- `ModuleLoader.display_help` (module_loader.py lines 175-201), as a
state-passing method: output lines paired with the loader state after the
call.  The body only reads `self.modules_dict`; the blanket
`except Exception` turns the IndexError of `path[0]` on an empty path into
a log entry with no output. -/
def displayHelp (st : LoaderState) (path : List String) :
    List String × LoaderState :=
  match path with
  | [] => ([], st)
  | moduleName :: _ =>
    match dictGet st.modulesDict moduleName with
    | none => (["Module not found."], st)
    | some content =>
      (("=== Help Documentation for Module: " ++ moduleName ++ " ===") ::
        (content.flatMap helpItemLines ++
          ["======================================="]), st)

/-! ## Python selection primitives used by main.py -/

/-- `int(s)` on operator input: ValueError becomes `none`.  Whitespace is
stripped and an optional sign is accepted; numerals with underscore
separators are not modelled. -/
def pyInt (s : String) : Option Int :=
  match pyTrimChars s.data with
  | '-' :: rest => (parseDigits rest).map (fun n => -(n : Int))
  | '+' :: rest => (parseDigits rest).map (fun n => (n : Int))
  | cs => (parseDigits cs).map (fun n => (n : Int))

/-- Python list subscription `xs[i]` with an Int index: negative indices
count from the end; IndexError becomes `none`. -/
def pyListGet {α : Type} (xs : List α) (i : Int) : Option α :=
  let j : Int := if i < 0 then (xs.length : Int) + i else i
  if 0 ≤ j then xs.get? j.toNat else none

/-- The selection idiom of main.py: `xs[int(input(...)) - 1]`, with the
surrounding `except (ValueError, IndexError)` mapped to `none`. -/
def pySelect {α : Type} (xs : List α) (inp : String) : Option α :=
  (pyInt inp).bind (fun k => pyListGet xs (k - 1))

def insertSorted (s : String) : List String → List String
| [] => [s]
| t :: ts => if strLt t s then t :: insertSorted s ts else s :: t :: ts

/-- `sorted(...)` over strings (also the order of `dir(...)`). -/
def sortStrings : List String → List String
| [] => []
| s :: ss => insertSorted s (sortStrings ss)

/-- The 1-based listing lines `f"{idx}. {name}"`. -/
def numbered (xs : List String) : List String :=
  xs.enum.map (fun p => natStr (p.1 + 1) ++ ". " ++ p.2)

/-! ## Python call binding

How CPython binds `*args, **kwargs` to a signature: positional arguments
fill parameters in order, remaining parameters take keyword arguments or
their defaults, and arity errors raise TypeError. -/

def bindParams : List PyParam → List PyVal → List (String × PyVal) →
    Except String (List (String × PyVal))
| [], [], [] => .ok []
| [], [], (k, _) :: _ => .error ("unexpected keyword argument " ++ k)
| [], _ :: _, _ => .error "too many positional arguments"
| p :: ps, a :: rest, kwargs =>
  if kwargs.any (fun q => q.1 = p.name) then
    .error ("multiple values for argument " ++ p.name)
  else
    match bindParams ps rest kwargs with
    | .ok bs => .ok ((p.name, a) :: bs)
    | .error e => .error e
| p :: ps, [], kwargs =>
  match dictGet kwargs p.name with
  | some v =>
    match bindParams ps [] (kwargs.filter (fun q => q.1 ≠ p.name)) with
    | .ok bs => .ok ((p.name, v) :: bs)
    | .error e => .error e
  | none =>
    match p.default with
    | some d =>
      match bindParams ps [] kwargs with
      | .ok bs => .ok ((p.name, d) :: bs)
      | .error e => .error e
    | none => .error ("missing required argument " ++ p.name)

/-! ## The dispatch loop of main.py as a state machine

Every `input()` call of the while body is a navigation state; processing
one line of operator input at a state yields the next state together with
the effects produced on the way to the next prompt.  `Next.exited` models
the `break` of menu choice 5; `Next.crashed` models an exception escaping
`main()` and terminating the process. -/

abbrev Insts := List (String × Instance)

inductive Nav : Type
| mainMenu
| expModuleSelect
| expClassSelect (moduleKey : String)
| initModuleSelect
| initClassSelect (moduleKey : String)
| runClassSelect
| runMethodSelect (clsName : String)
| runArgs (clsName methName : String) (meth : Method)
    (remaining : List PyParam) (ags : List PyVal)
    (kws : List (String × PyVal))
| helpModuleSelect

structure MState : Type where
  nav : Nav
  instances : Insts

inductive Next : Type
| cont (m : MState)
| exited
| crashed (msg : String)

/-- Observable effects of a step: console output lines, and the method
invocations `method_to_call(*args, **kwargs)` performed. -/
inductive Eff : Type
| out (s : String)
| call (cls meth : String) (ags : List PyVal) (kws : List (String × PyVal))

def sortedModuleKeys (reg : Registry) : List String :=
  sortStrings (dictKeys reg)

def classNames (content : ModuleDict) : List String :=
  (content.filter (fun p => p.2.hasMethods)).map (fun p => p.1)

def fnNames (content : ModuleDict) : List String :=
  (content.filter (fun p => p.2.hasFunction)).map (fun p => p.1)

/-- `dir(instance)` filtered as in main.py line 169: sorted attribute
names, keeping the non-underscore callables. -/
def dirMethods (obj : Instance) : List String :=
  (sortStrings (obj.attrs.map (fun p => p.1))).filter
    (fun m => !(startsUnderscore m))

/-- The per-parameter prompt of the argument-collection loops (main.py
lines 186-193): a mandatory parameter is prompted bare, an optional one
with its default displayed. -/
def promptFor (p : PyParam) : Eff :=
  match p.default with
  | none => .out ("Enter argument for " ++ p.name ++ ": ")
  | some d =>
    .out ("Enter argument for " ++ p.name ++ " (default=" ++ showVal d ++ "): ")

/-- One iteration of the collection loop (main.py lines 186-193): a
mandatory parameter appends the raw input to args; an optional one stores
`input(...) or default` under its name in kwargs (the empty reply falls
back to the default). -/
def collectParam (p : PyParam) (inp : String) (ags : List PyVal)
    (kws : List (String × PyVal)) : List PyVal × List (String × PyVal) :=
  match p.default with
  | none => (ags ++ [PyVal.str inp], kws)
  | some d => (ags, kws ++ [(p.name, if inp = "" then d else PyVal.str inp)])

/-- `result = method_to_call(*args, **kwargs)` with its try/except
(main.py lines 195-204): the call is recorded, the result or the caught
exception message is printed, and control falls to the bottom of the
while body, i.e. back to the main-menu prompt. -/
def invokeMethod (inst : Insts) (cname mname : String) (meth : Method)
    (ags : List PyVal) (kws : List (String × PyVal)) : Next × List Eff :=
  (.cont ⟨.mainMenu, inst⟩,
    Eff.call cname mname ags kws ::
    (match meth.run ags kws with
     | .ok (some v) => [.out ("Result: " ++ showVal v)]
     | .ok none => [.out "Result: No output returned."]
     | .error msg => [.out ("Error executing the function: " ++ msg)]))

/-- Menu choice 1 after module selection (main.py lines 48-81). -/
def exploreModule (reg : Registry) (inst : Insts) (key : String) :
    Next × List Eff :=
  match dictGet reg key with
  | none => (.crashed "KeyError", [])
  | some content =>
    let classes := classNames content
    let functions := fnNames content
    let effs :=
      Eff.out ("=== Contents of Module: " ++ key ++ " ===") ::
      ((if classes.isEmpty then [] else
          Eff.out "Classes:" :: (numbered classes).map Eff.out) ++
        (if functions.isEmpty then [] else
          Eff.out "Functions:" :: (numbered functions).map Eff.out))
    if classes.isEmpty then
      (.cont ⟨.mainMenu, inst⟩,
        effs ++ [.out "No classes available to drill down further."])
    else
      (.cont ⟨.expClassSelect key, inst⟩, effs)

/-- The module-selection prompt of menu choice 1 (main.py lines 41-46). -/
def stepExpModule (reg : Registry) (inst : Insts) (inp : String) :
    Next × List Eff :=
  match pySelect (sortedModuleKeys reg) inp with
  | none =>
    (.cont ⟨.mainMenu, inst⟩,
      [.out "Invalid selection. Please select a valid module number."])
  | some key => exploreModule reg inst key

/-- The class-selection prompt of menu choice 1 (main.py lines 63-79). -/
def stepExpClass (reg : Registry) (inst : Insts) (key : String)
    (inp : String) : Next × List Eff :=
  match dictGet reg key with
  | none => (.crashed "KeyError", [])
  | some content =>
    match pySelect (classNames content) inp with
    | none =>
      (.cont ⟨.mainMenu, inst⟩,
        [.out "No class selected. Returning to main menu."])
    | some cname =>
      match dictGet content cname with
      | some (.clsE _ ms _) =>
        let methods :=
          (ms.map (fun p => p.1)).filter (fun m => !(startsUnderscore m))
        (.cont ⟨.mainMenu, inst⟩,
          (if methods.isEmpty then [] else
            Eff.out ("Methods in class " ++ cname ++ ":") ::
              (numbered methods).map Eff.out) ++
            [.out "======================================="])
      | _ => (.crashed "KeyError", [])

/-- Menu choice 2 after module selection (main.py lines 98-102): list the
classes of the selected module and move to the class prompt. -/
def initSelectModule (reg : Registry) (inst : Insts) (m : String) :
    Next × List Eff :=
  match dictGet reg m with
  | none => (.crashed "KeyError", [])
  | some content =>
    (.cont ⟨.initClassSelect m, inst⟩,
      (numbered (classNames content)).map Eff.out)

/-- The module-selection prompt of menu choice 2 (main.py lines 91-96). -/
def stepInitModule (reg : Registry) (inst : Insts) (inp : String) :
    Next × List Eff :=
  match pySelect (dictKeys reg) inp with
  | none =>
    (.cont ⟨.mainMenu, inst⟩,
      [.out "Invalid selection. Please select a valid module number."])
  | some m => initSelectModule reg inst m

/-- The class-selection prompt of menu choice 2 (main.py lines 103-110).
On a valid class selection the code evaluates
`class_content['class_ref']`; the entry dicts built by
`_add_module_to_dict` carry only the keys instance/methods/help, so the
subscript raises KeyError, which the surrounding
`except (ValueError, IndexError)` does not catch: the exception escapes
`main()` and the process dies. -/
def stepInitClass (reg : Registry) (inst : Insts) (m : String)
    (inp : String) : Next × List Eff :=
  match dictGet reg m with
  | none => (.crashed "KeyError", [])
  | some content =>
    match pySelect (classNames content) inp with
    | none =>
      (.cont ⟨.mainMenu, inst⟩,
        [.out "Invalid selection. Please select a valid class number."])
    | some cname =>
      match dictGet content cname with
      | none => (.crashed "KeyError", [])
      | some _ => (.crashed "KeyError: class_ref", [])

/-- The class-selection prompt of menu choice 3 (main.py lines 159-171). -/
def stepRunClass (reg : Registry) (inst : Insts) (inp : String) :
    Next × List Eff :=
  match pySelect (dictKeys inst) inp with
  | none =>
    (.cont ⟨.mainMenu, inst⟩,
      [.out "Invalid selection. Please select a valid class number."])
  | some cname =>
    match dictGet inst cname with
    | none => (.crashed "KeyError", [])
    | some obj =>
      (.cont ⟨.runMethodSelect cname, inst⟩,
        (numbered (dirMethods obj)).map Eff.out)

/-- The method-selection prompt of menu choice 3 (main.py lines 172-193):
an invalid selection is caught by
`except (ValueError, IndexError, AttributeError)`; a valid one enters the
argument-collection loop, or invokes immediately when the signature has no
parameters to collect. -/
def stepRunMethod (reg : Registry) (inst : Insts) (cname : String)
    (inp : String) : Next × List Eff :=
  match dictGet inst cname with
  | none => (.crashed "KeyError", [])
  | some obj =>
    match pySelect (dirMethods obj) inp with
    | none =>
      (.cont ⟨.mainMenu, inst⟩,
        [.out "Error selecting or executing method."])
    | some mname =>
      match dictGet obj.attrs mname with
      | none =>
        (.cont ⟨.mainMenu, inst⟩,
          [.out "Error selecting or executing method."])
      | some meth =>
        let ps := meth.params.filter (fun p => p.name ≠ "self")
        let hdr :=
          Eff.out "Enter arguments for the function (or press Enter to skip):"
        match ps with
        | [] =>
          let r := invokeMethod inst cname mname meth [] []
          (r.1, hdr :: r.2)
        | p :: _ =>
          (.cont ⟨.runArgs cname mname meth ps [] [], inst⟩,
            [hdr, promptFor p])

/-- One argument-collection prompt (main.py lines 186-193): consume the
reply for the next parameter, then either prompt for the following one or
perform the invocation. -/
def stepRunArgs (reg : Registry) (inst : Insts) (cname mname : String)
    (meth : Method) (remaining : List PyParam) (ags : List PyVal)
    (kws : List (String × PyVal)) (inp : String) : Next × List Eff :=
  match remaining with
  | [] => invokeMethod inst cname mname meth ags kws
  | p :: rest =>
    let c := collectParam p inp ags kws
    match rest with
    | [] => invokeMethod inst cname mname meth c.1 c.2
    | q :: _ =>
      (.cont ⟨.runArgs cname mname meth rest c.1 c.2, inst⟩, [promptFor q])

/-- The module-selection prompt of menu choice 4 (main.py lines 206-216). -/
def stepHelpModule (reg : Registry) (inst : Insts) (inp : String) :
    Next × List Eff :=
  match pySelect (dictKeys reg) inp with
  | none =>
    (.cont ⟨.mainMenu, inst⟩,
      [.out "Invalid selection. Please select a valid module number."])
  | some m =>
    (.cont ⟨.mainMenu, inst⟩, ((displayHelp ⟨reg⟩ [m]).1).map Eff.out)

/-- The top-level menu prompt (main.py lines 22-223). -/
def stepMainMenu (reg : Registry) (inst : Insts) (inp : String) :
    Next × List Eff :=
  if inp = "1" then
    if reg.isEmpty then
      (.cont ⟨.mainMenu, inst⟩,
        [.out "No modules were found or loaded. Please check the modules directory and try again."])
    else
      (.cont ⟨.expModuleSelect, inst⟩,
        Eff.out "=== Available Modules ===" ::
          (numbered (sortedModuleKeys reg)).map Eff.out ++
          [.out "======================================="])
  else if inp = "2" then
    (.cont ⟨.initModuleSelect, inst⟩, (numbered (dictKeys reg)).map Eff.out)
  else if inp = "3" then
    if inst.isEmpty then
      (.cont ⟨.mainMenu, inst⟩,
        [.out "No modules have been initialized yet. Please initialize a module first."])
    else
      (.cont ⟨.runClassSelect, inst⟩,
        Eff.out "=== Initialized Modules ===" ::
          (numbered (dictKeys inst)).map Eff.out)
  else if inp = "4" then
    (.cont ⟨.helpModuleSelect, inst⟩,
      Eff.out "=== Help Documentation ===" ::
        (numbered (dictKeys reg)).map Eff.out)
  else if inp = "5" then
    (.exited, [.out "Exiting Module Loader Interactive Environment."])
  else
    (.cont ⟨.mainMenu, inst⟩,
      [.out "Invalid choice. Please select a valid option."])

/-- One step of the dispatch loop: consume one line of operator input at
the current navigation state. -/
def step (reg : Registry) (st : MState) (inp : String) : Next × List Eff :=
  match st.nav with
  | .mainMenu => stepMainMenu reg st.instances inp
  | .expModuleSelect => stepExpModule reg st.instances inp
  | .expClassSelect k => stepExpClass reg st.instances k inp
  | .initModuleSelect => stepInitModule reg st.instances inp
  | .initClassSelect m => stepInitClass reg st.instances m inp
  | .runClassSelect => stepRunClass reg st.instances inp
  | .runMethodSelect c => stepRunMethod reg st.instances c inp
  | .runArgs c m meth rem ags kws =>
    stepRunArgs reg st.instances c m meth rem ags kws inp
  | .helpModuleSelect => stepHelpModule reg st.instances inp

/-- Feed a list of operator input lines to the loop; the result is the
state after consuming them, or the exit/crash that cut the run short. -/
def runInputs (reg : Registry) (st : MState) : List String → Next
| [] => .cont st
| i :: is =>
  match step reg st i with
  | (.cont st2, _) => runInputs reg st2 is
  | (r, _) => r

/-! ## Concrete fixtures used by counterexamples and witnesses -/

/-- An instance with no public callables, as produced by instantiating a
class with an empty body. -/
def demoInstanceE : Instance := ⟨[]⟩

/-- A registry as built by the loader from one module defining one
auto-instantiable class C. -/
def demoRegC1 : Registry := [("mod1.py", [("C", .clsE demoInstanceE [] none)])]

/-- A registry of two modules with no classes. -/
def demoReg2 : Registry := [("m1", []), ("m2", [])]

/-- A registry of five modules, the fifth containing a class. -/
def demoReg5 : Registry :=
  [("m1", []), ("m2", []), ("m3", []), ("m4", []),
    ("m5", [("K", .clsE demoInstanceE [] none)])]

/-- A class whose constructor has a mandatory parameter x beyond self. -/
def demoClsB : PyClass :=
  { declModule := "m"
    initParams := [⟨"self", none⟩, ⟨"x", none⟩]
    instOk := true
    inst := demoInstanceE
    methods := []
    doc := none }

/-- A class with an all-default constructor whose zero-argument
instantiation raises. -/
def demoClsD : PyClass :=
  { declModule := "m"
    initParams := [⟨"self", none⟩]
    instOk := false
    inst := demoInstanceE
    methods := []
    doc := none }

/-- A class defined in another module and merely imported. -/
def demoClsImported : PyClass :=
  { declModule := "helpers"
    initParams := [⟨"self", none⟩]
    instOk := true
    inst := demoInstanceE
    methods := []
    doc := none }

/-- A module with one mandatory-parameter class and one class whose
instantiation raises. -/
def demoModC3 : PyModule :=
  { name := "m"
    members := [("B", .cls demoClsB), ("D", .cls demoClsD)] }

/-- A module whose namespace holds an imported function g (declared in
module helpers) and an imported class K. -/
def demoModC4 : PyModule :=
  { name := "m"
    members := [("K", .cls demoClsImported), ("g", .fn "helpers" none)] }

/-- A system with no resolvable binaries and no working installer. -/
def demoSysC2 : SysEnv :=
  { availableBinaries := [], osType := "Linux", installSucceeds := [] }

/-- An empty module body. -/
def demoModEmpty : PyModule := { name := "e", members := [] }

/-- A walked file named ssh.py: its stem is in the required-binaries
table, and the operator declines installation. -/
def demoFileSsh : FileEnt :=
  { stem := "ssh", relKey := "ssh.ssh.py", parses := true
    content := demoModEmpty, installChoice := "n" }

/-- A well-formed walked file with no binary requirements. -/
def demoFileHelper : FileEnt :=
  { stem := "helper", relKey := "helper.py", parses := true
    content := { name := "helper", members := [("g", .fn "helper" none)] }
    installChoice := "n" }

/-- A scanned tree: the root plus one subdirectory sub lacking an
__init__.py file. -/
def demoFs : Fs := { dirs := [[], ["sub"]], files := [([], "a.py")] }

/-- A file-semantics environment where nothing parses. -/
def demoEnv : List String → String → FileSem :=
  fun _ _ => { parses := false, content := demoModEmpty, installChoice := "n" }

/-- A two-parameter method (a, b=5) whose call returns None. -/
def demoMethodAB : Method :=
  { params := [⟨"a", none⟩, ⟨"b", some (.int 5)⟩]
    run := fun _ _ => .ok none }

/-- One initialized object named Worker exposing method do = (a, b=5). -/
def demoInstC7 : Insts := [("Worker", ⟨[("do", demoMethodAB)]⟩)]

/-- A one-parameter method whose call always raises with message boom. -/
def demoBoom : Method :=
  { params := [⟨"a", none⟩]
    run := fun _ _ => .error "boom" }

/-- One initialized object named W exposing the raising method go. -/
def demoInstsB : Insts := [("W", ⟨[("go", demoBoom)]⟩)]

/-! ## Helper lemmas about dictionaries and the extractor -/

theorem dictGet_some_mem_keys {α : Type} (k : String) (v : α) :
    ∀ d : List (String × α), dictGet d k = some v → k ∈ dictKeys d
| p :: ps, h => by
  by_cases hp : p.1 = k
  · simp [dictKeys, hp]
  · simp only [dictGet, if_neg hp] at h
    simp only [dictKeys, List.map_cons, List.mem_cons]
    exact Or.inr (dictGet_some_mem_keys k v ps h)

theorem nodup_key_unique {α : Type} :
    ∀ (ms : List (String × α)) (n : String) (a b : α),
      (ms.map Prod.fst).Nodup → (n, a) ∈ ms → (n, b) ∈ ms → a = b
| p :: ps, n, a, b, hnd, ha, hb => by
  simp only [List.map_cons, List.nodup_cons] at hnd
  rcases List.mem_cons.mp ha with ha1 | ha1 <;>
    rcases List.mem_cons.mp hb with hb1 | hb1
  · exact congrArg Prod.snd (ha1.trans hb1.symm)
  · exfalso
    have hk : n ∈ ps.map Prod.fst := List.mem_map_of_mem Prod.fst hb1
    rw [← ha1] at hnd
    exact hnd.1 hk
  · exfalso
    have hk : n ∈ ps.map Prod.fst := List.mem_map_of_mem Prod.fst ha1
    rw [← hb1] at hnd
    exact hnd.1 hk
  · exact nodup_key_unique ps n a b hnd.2 ha1 hb1

theorem addMembers_keys (mn : String) :
    ∀ ms : List (String × Member),
      dictKeys (addMembers mn ms).1 =
        ((ms.filter (fun p => keepMember mn p.2)).map Prod.fst)
| [] => rfl
| (n, Member.cls c) :: rest => by
  have ih := addMembers_keys mn rest
  simp only [dictKeys] at ih
  by_cases h1 : c.declModule = mn
  · by_cases h2 : hasRequiredParams c.initParams = true
    · have hk : keepMember mn (Member.cls c) = false := by
        simp [keepMember, h1, h2]
      simp [addMembers, h1, h2, List.filter_cons, hk, ih, dictKeys]
    · by_cases h3 : c.instOk = true
      · have hk : keepMember mn (Member.cls c) = true := by
          simp [keepMember, h1, h2, h3]
        simp [addMembers, h1, h2, h3, List.filter_cons, hk, ih, dictKeys]
      · have hk : keepMember mn (Member.cls c) = false := by
          simp [keepMember, h1, h2, h3]
        simp [addMembers, h1, h2, h3, List.filter_cons, hk, ih, dictKeys]
  · have hk : keepMember mn (Member.cls c) = false := by
      simp [keepMember, h1]
    simp [addMembers, h1, List.filter_cons, hk, ih, dictKeys]
| (n, Member.fn dm doc) :: rest => by
  have ih := addMembers_keys mn rest
  simp only [dictKeys] at ih
  have hk : keepMember mn (Member.fn dm doc) = true := rfl
  simp [addMembers, List.filter_cons, hk, ih, dictKeys]

/-- Positive event membership for a class member of the module. -/
theorem addMembers_class_events (mn : String) :
    ∀ (ms : List (String × Member)) (name : String) (c : PyClass),
      (name, Member.cls c) ∈ ms → c.declModule = mn →
      (hasRequiredParams c.initParams = true →
        LogEvent.warnSkip name ∈ (addMembers mn ms).2) ∧
      (hasRequiredParams c.initParams = false → c.instOk = false →
        LogEvent.attempt name ∈ (addMembers mn ms).2 ∧
        LogEvent.errorInst name ∈ (addMembers mn ms).2)
| (hn, hm) :: rest, name, c, hmem, hdecl => by
  rcases List.mem_cons.mp hmem with hh | ht
  · injection hh with he1 he2
    subst he1
    subst he2
    constructor
    · intro h2
      simp [addMembers, hdecl, h2]
    · intro h2 h3
      simp [addMembers, hdecl, h2, h3]
  · have ih := addMembers_class_events mn rest name c ht hdecl
    constructor
    · intro h2
      have := ih.1 h2
      cases hm with
      | cls c2 =>
        by_cases g1 : c2.declModule = mn
        · by_cases g2 : hasRequiredParams c2.initParams = true
          · simp [addMembers, g1, g2, this]
          · by_cases g3 : c2.instOk = true
            · simp [addMembers, g1, g2, g3, this]
            · simp [addMembers, g1, g2, g3, this]
        · simp [addMembers, g1, this]
      | fn dm doc => simp [addMembers, this]
    · intro h2 h3
      have := ih.2 h2 h3
      cases hm with
      | cls c2 =>
        by_cases g1 : c2.declModule = mn
        · by_cases g2 : hasRequiredParams c2.initParams = true
          · simp [addMembers, g1, g2, this.1, this.2]
          · by_cases g3 : c2.instOk = true
            · simp [addMembers, g1, g2, g3, this.1, this.2]
            · simp [addMembers, g1, g2, g3, this.1, this.2]
        · simp [addMembers, g1, this.1, this.2]
      | fn dm doc => simp [addMembers, this.1, this.2]

/-- An instantiation attempt for n can only come from a class member
named n, declared in the module, with no mandatory parameter. -/
theorem addMembers_attempt_mem (mn : String) :
    ∀ (ms : List (String × Member)) (n : String),
      LogEvent.attempt n ∈ (addMembers mn ms).2 →
      ∃ c, (n, Member.cls c) ∈ ms ∧ c.declModule = mn ∧
        hasRequiredParams c.initParams = false
| (hn, hm) :: rest, n, h => by
  have step1 : LogEvent.attempt n ∈ (addMembers mn rest).2 →
      ∃ c, (n, Member.cls c) ∈ (hn, hm) :: rest ∧ c.declModule = mn ∧
        hasRequiredParams c.initParams = false := by
    intro ht
    obtain ⟨c, hc1, hc2, hc3⟩ := addMembers_attempt_mem mn rest n ht
    exact ⟨c, List.mem_cons_of_mem _ hc1, hc2, hc3⟩
  cases hm with
  | cls c2 =>
    by_cases g1 : c2.declModule = mn
    · by_cases g2 : hasRequiredParams c2.initParams = true
      · simp only [addMembers, g1, if_true, g2] at h
        rcases List.mem_cons.mp h with he | he
        · exact absurd he (by simp)
        · exact step1 he
      · by_cases g3 : c2.instOk = true
        · simp only [addMembers, g1, if_true, g2, if_false, g3] at h
          rcases List.mem_cons.mp h with he | he
          · have : n = hn := by
              simpa using he
            exact ⟨c2, by rw [this]; exact List.mem_cons_self _ _, g1,
              Bool.not_eq_true _ ▸ (by simpa using g2)⟩
          · exact step1 he
        · simp only [addMembers, g1, if_true, g2, if_false, g3] at h
          rcases List.mem_cons.mp h with he | he
          · have : n = hn := by simpa using he
            exact ⟨c2, by rw [this]; exact List.mem_cons_self _ _, g1,
              Bool.not_eq_true _ ▸ (by simpa using g2)⟩
          · rcases List.mem_cons.mp he with he2 | he2
            · exact absurd he2 (by simp)
            · exact step1 he2
    · simp only [addMembers, g1, if_false] at h
      exact step1 h
  | fn dm doc =>
    simp only [addMembers] at h
    exact step1 h

/-- A member whose keep-guard is false is absent from the built dict,
provided member names are unique (as `inspect.getmembers` guarantees). -/
theorem addMembers_not_kept_none (mn : String) (ms : List (String × Member))
    (name : String) (mem : Member) (hmem : (name, mem) ∈ ms)
    (hnd : (ms.map Prod.fst).Nodup) (hkeep : keepMember mn mem = false) :
    dictGet (addMembers mn ms).1 name = none := by
  cases h : dictGet (addMembers mn ms).1 name with
  | none => rfl
  | some e =>
    exfalso
    have hk := dictGet_some_mem_keys name e _ h
    rw [addMembers_keys] at hk
    obtain ⟨p, hpf, hpe⟩ := List.mem_map.mp hk
    have hpm := List.mem_filter.mp hpf
    have h5 : (name, p.2) = p := by
      rw [← hpe]
    have hpms : (name, p.2) ∈ ms := by
      rw [h5]; exact hpm.1
    have h6 := nodup_key_unique ms name p.2 mem hnd hpms hmem
    have hkt := hpm.2
    rw [h6] at hkt
    rw [hkeep] at hkt
    exact Bool.noConfusion hkt

/-! ## Claim theorems -/

/-- C3 (corrected, counterexample): the claim says a class with a
mandatory constructor parameter, or one whose zero-argument instantiation
raises, is still catalogued in the registry as present.  In the code, the
skip and failure branches of `_add_module_to_dict` store nothing: for the
module demoModC3 — class B has a mandatory parameter x, class D raises on
instantiation — the built module dict is empty, so neither class is
present at all. -/
theorem c3_counterexample :
    dictGet (addModuleToDict demoModC3).1 "B" = none ∧
    dictGet (addModuleToDict demoModC3).1 "D" = none ∧
    (addModuleToDict demoModC3).1 = [] :=
  ⟨rfl, rfl, rfl⟩

/-- C3 (amended): for every top-level class defined in the unit whose
constructor has a mandatory non-self parameter, the extractor never
attempts instantiation (no attempt event), logs a warning, and the class
is omitted from the registry entirely — not catalogued as present.
Likewise a class whose zero-argument instantiation raises is attempted,
logged as an error, and omitted from the registry. -/
theorem c3_uninstantiated_not_catalogued (m : PyModule) (name : String)
    (c : PyClass) (hmem : (name, Member.cls c) ∈ m.members)
    (hdecl : c.declModule = m.name)
    (hnd : (m.members.map Prod.fst).Nodup) :
    (hasRequiredParams c.initParams = true →
      LogEvent.attempt name ∉ (addModuleToDict m).2 ∧
      dictGet (addModuleToDict m).1 name = none ∧
      LogEvent.warnSkip name ∈ (addModuleToDict m).2) ∧
    (hasRequiredParams c.initParams = false → c.instOk = false →
      LogEvent.attempt name ∈ (addModuleToDict m).2 ∧
      dictGet (addModuleToDict m).1 name = none ∧
      LogEvent.errorInst name ∈ (addModuleToDict m).2) := by
  simp only [addModuleToDict]
  have hev := addMembers_class_events m.name m.members name c hmem hdecl
  constructor
  · intro h2
    refine ⟨?_, ?_, hev.1 h2⟩
    · intro hat
      obtain ⟨c2, hc2m, hc2d, hc2r⟩ :=
        addMembers_attempt_mem m.name m.members name hat
      have h7 := nodup_key_unique m.members name (Member.cls c2)
        (Member.cls c) hnd hc2m hmem
      injection h7 with hcc
      rw [hcc] at hc2r
      rw [h2] at hc2r
      exact Bool.noConfusion hc2r
    · apply addMembers_not_kept_none m.name m.members name (Member.cls c)
        hmem hnd
      simp [keepMember, hdecl, h2]
  · intro h2 h3
    have h := hev.2 h2 h3
    refine ⟨h.1, ?_, h.2⟩
    apply addMembers_not_kept_none m.name m.members name (Member.cls c)
      hmem hnd
    simp [keepMember, hdecl, h2, h3]

/-- Witness for C3 at the concrete module demoModC3: the
mandatory-parameter class B is warned about, never attempted, and absent
from the dict. -/
theorem c3_witness :
    (("B", Member.cls demoClsB) ∈ demoModC3.members) ∧
    LogEvent.warnSkip "B" ∈ (addModuleToDict demoModC3).2 ∧
    LogEvent.attempt "B" ∉ (addModuleToDict demoModC3).2 := by
  have h := c3_uninstantiated_not_catalogued demoModC3 "B" demoClsB
    (List.mem_cons_self _ _) rfl (by decide)
  exact ⟨List.mem_cons_self _ _, (h.1 rfl).2.2, (h.1 rfl).1⟩

/-- C4 (corrected, counterexample): the claim says an object merely
imported into the unit namespace — whether a class or a function — is
never catalogued.  In demoModC4 (unit named m) the function g is declared
in module helpers and merely imported, yet it is catalogued; the imported
class K is indeed excluded.  The function branch of
`_add_module_to_dict` has no declaring-module test. -/
theorem c4_counterexample :
    dictGet (addModuleToDict demoModC4).1 "g" = some (Entry.fnE none) ∧
    dictGet (addModuleToDict demoModC4).1 "K" = none :=
  ⟨rfl, rfl⟩

/-- C4 (amended): the extractor catalogues exactly the members kept by
`keepMember`: every function member of the unit namespace (defined there
or merely imported), plus the classes whose declaring module matches the
unit, whose constructors have no mandatory parameter, and whose
zero-argument instantiation succeeds.  Imported classes are never
catalogued; imported functions are. -/
theorem c4_catalogued_names (m : PyModule) :
    dictKeys (addModuleToDict m).1 =
      ((m.members.filter (fun p => keepMember m.name p.2)).map Prod.fst) :=
  addMembers_keys m.name m.members

/-- C2 (corrected, counterexample): the claim says a gate failure blocks
only the dependent unit while every other eligible file still loads.  In
the code `_check_module_binaries` is called before the try block of
`_load_modules`, so the RuntimeError of a declined installation
propagates: with ssh unresolvable and installation declined, the walk
over [ssh.py, helper.py] aborts with the gate error and helper.py is
never loaded (no registry is produced at all). -/
theorem c2_counterexample :
    loadModulesAux demoSysC2 [] [demoFileSsh, demoFileHelper] =
      .error "Cannot proceed without required binaries: ssh" :=
  rfl

/-- C2 (amended): a Prerequisite Gate failure does not block only the
dependent unit: the walk aborts with the gate error, and no file after
the failing one (nor the failing one) is loaded.  Files before it must
have passed their gates for the walk to reach it. -/
theorem c2_gate_aborts_walk (sys : SysEnv) (reg0 : Registry)
    (pre : List FileEnt) (f : FileEnt) (post : List FileEnt) (e : String)
    (hpre : ∀ g ∈ pre, checkModuleBinaries sys g = .ok ())
    (hf : checkModuleBinaries sys f = .error e) :
    loadModulesAux sys reg0 (pre ++ f :: post) = .error e := by
  induction pre generalizing reg0 with
  | nil => simp [loadModulesAux, hf]
  | cons g gs ih =>
    have hg : checkModuleBinaries sys g = .ok () :=
      hpre g (List.mem_cons_self _ _)
    have hgs : ∀ x ∈ gs, checkModuleBinaries sys x = .ok () :=
      fun x hx => hpre x (List.mem_cons_of_mem _ hx)
    simp only [List.cons_append, loadModulesAux, hg]
    exact ih _ hgs

/-- Witness for C2 at the concrete walk [ssh.py, helper.py]. -/
theorem c2_gate_aborts_walk_witness :
    checkModuleBinaries demoSysC2 demoFileSsh =
      .error "Cannot proceed without required binaries: ssh" ∧
    loadModulesAux demoSysC2 [] ([] ++ demoFileSsh :: [demoFileHelper]) =
      .error "Cannot proceed without required binaries: ssh" :=
  ⟨rfl, c2_gate_aborts_walk demoSysC2 [] [] demoFileSsh [demoFileHelper] _
    (fun g hg => absurd hg (List.not_mem_nil g)) rfl⟩

/-- C9 (confirmed): `display_help` only reads the loader state, so the
state after a call is the state before it, and two calls with the same
unit identifier produce identical output. -/
theorem c9_display_help_idempotent (st : LoaderState) (path : List String) :
    (displayHelp st path).2 = st ∧
    (displayHelp st path).1 = (displayHelp ((displayHelp st path).2) path).1 := by
  have h2 : (displayHelp st path).2 = st := by
    cases path with
    | nil => rfl
    | cons a t =>
      cases h : dictGet st.modulesDict a <;> simp [displayHelp, h]
  exact ⟨h2, by rw [h2]⟩

/-- Witness for C9 at a concrete registry and unit identifier. -/
theorem c9_display_help_idempotent_witness :
    (displayHelp ⟨demoRegC1⟩ ["mod1.py"]).2 = (⟨demoRegC1⟩ : LoaderState) :=
  (c9_display_help_idempotent ⟨demoRegC1⟩ ["mod1.py"]).1

/-- C10 (confirmed): constructing the loader first runs
`_ensure_init_files` and only then loads units; the filesystem the
constructor leaves behind is exactly the `_ensure_init_files` result,
whose directory list is unchanged and whose file list is the input plus
one empty __init__.py for precisely each non-root directory lacking one;
every non-root directory has an __init__.py afterwards. -/
theorem c10_ensure_init_files_frame (sys : SysEnv)
    (env : List String → String → FileSem) (fs : Fs) :
    (moduleLoaderInit sys env fs).1 = ensureInitFiles fs ∧
    (ensureInitFiles fs).dirs = fs.dirs ∧
    (ensureInitFiles fs).files = fs.files ++
      ((fs.dirs.filter (fun d => !(List.isEmpty d) &&
          !(fs.files.any (fun q => q = (d, "__init__.py"))))).map
        (fun d => (d, "__init__.py"))) ∧
    (∀ d, d ∈ fs.dirs → d ≠ [] →
      (d, "__init__.py") ∈ (ensureInitFiles fs).files) := by
  refine ⟨rfl, rfl, rfl, ?_⟩
  intro d hd hne
  by_cases hmem : (d, "__init__.py") ∈ fs.files
  · exact List.mem_append_left _ hmem
  · refine List.mem_append_right _ ?_
    refine List.mem_map.mpr ⟨d, ?_, rfl⟩
    refine List.mem_filter.mpr ⟨hd, ?_⟩
    have h1 : List.isEmpty d = false := by
      cases d with
      | nil => exact absurd rfl hne
      | cons x xs => rfl
    have h2 : fs.files.any (fun q => q = (d, "__init__.py")) = false := by
      rw [← Bool.not_eq_true]
      intro hcontra
      obtain ⟨q, hq, hqe⟩ := List.any_eq_true.mp hcontra
      exact hmem ((of_decide_eq_true hqe) ▸ hq)
    simp [h1, h2]

/-- Witness for C10: in the demo tree, the subdirectory sub gains an
__init__.py. -/
theorem c10_ensure_init_files_frame_witness :
    (["sub"], "__init__.py") ∈ (ensureInitFiles demoFs).files :=
  (c10_ensure_init_files_frame demoSysC2 demoEnv demoFs).2.2.2 ["sub"]
    (by decide) (by decide)

/-! ## Helper lemmas about Python list selection and the step function -/

theorem pyListGet_big_none {α : Type} (xs : List α) (i : Int)
    (h : (xs.length : Int) ≤ i) : pyListGet xs i = none := by
  unfold pyListGet
  have hi : ¬ i < 0 := by omega
  rw [if_neg hi, if_pos (by omega)]
  exact List.get?_eq_none.mpr (by omega)

theorem pyListGet_neg_none {α : Type} (xs : List α) (i : Int)
    (hi : i < 0) (h : (xs.length : Int) + i < 0) : pyListGet xs i = none := by
  unfold pyListGet
  rw [if_pos hi, if_neg (by omega)]

theorem pyListGet_neg_get {α : Type} (xs : List α) (i : Int)
    (hi : i < 0) (h0 : 0 ≤ (xs.length : Int) + i) :
    pyListGet xs i = xs.get? ((xs.length : Int) + i).toNat := by
  unfold pyListGet
  rw [if_pos hi, if_pos h0]

theorem invokeMethod_fst (inst : Insts) (cname mname : String)
    (meth : Method) (ags : List PyVal) (kws : List (String × PyVal)) :
    (invokeMethod inst cname mname meth ags kws).1 =
      Next.cont ⟨.mainMenu, inst⟩ := rfl

theorem stepExpModule_fst_ne (reg : Registry) (inst : Insts) (i : String) :
    (stepExpModule reg inst i).1 ≠ Next.exited := by
  unfold stepExpModule
  split
  · simp
  · unfold exploreModule
    split
    · simp
    · dsimp only
      split <;> simp

theorem stepExpClass_fst_ne (reg : Registry) (inst : Insts) (k i : String) :
    (stepExpClass reg inst k i).1 ≠ Next.exited := by
  unfold stepExpClass
  split
  · simp
  · split
    · simp
    · split <;> simp

theorem stepInitModule_fst_ne (reg : Registry) (inst : Insts) (i : String) :
    (stepInitModule reg inst i).1 ≠ Next.exited := by
  unfold stepInitModule
  split
  · simp
  · unfold initSelectModule
    split <;> simp

theorem stepInitClass_fst_ne (reg : Registry) (inst : Insts) (m i : String) :
    (stepInitClass reg inst m i).1 ≠ Next.exited := by
  unfold stepInitClass
  split
  · simp
  · split
    · simp
    · split <;> simp

theorem stepRunClass_fst_ne (reg : Registry) (inst : Insts) (i : String) :
    (stepRunClass reg inst i).1 ≠ Next.exited := by
  unfold stepRunClass
  split
  · simp
  · split <;> simp

theorem stepRunMethod_fst_ne (reg : Registry) (inst : Insts)
    (cname i : String) : (stepRunMethod reg inst cname i).1 ≠ Next.exited := by
  unfold stepRunMethod
  split
  · simp
  · split
    · simp
    · split
      · simp
      · dsimp only
        split <;> simp [invokeMethod]

theorem stepRunArgs_fst_ne (reg : Registry) (inst : Insts)
    (cname mname : String) (meth : Method) (rem : List PyParam)
    (ags : List PyVal) (kws : List (String × PyVal)) (i : String) :
    (stepRunArgs reg inst cname mname meth rem ags kws i).1 ≠
      Next.exited := by
  unfold stepRunArgs
  split
  · simp [invokeMethod]
  · split <;> simp [invokeMethod]

theorem stepHelpModule_fst_ne (reg : Registry) (inst : Insts) (i : String) :
    (stepHelpModule reg inst i).1 ≠ Next.exited := by
  unfold stepHelpModule
  split <;> simp

theorem stepMainMenu_exit_iff (reg : Registry) (inst : Insts) (i : String) :
    (stepMainMenu reg inst i).1 = Next.exited ↔ i = "5" := by
  unfold stepMainMenu
  split
  · rename_i h1
    subst h1
    split <;> simp
  · split
    · rename_i h1 h2
      subst h2
      simp
    · split
      · rename_i h1 h2 h3
        subst h3
        split <;> simp
      · split
        · rename_i h1 h2 h3 h4
          subst h4
          simp
        · split
          · rename_i h5
            subst h5
            simp
          · rename_i h1 h2 h3 h4 h5
            simp [h5]

/-! ## Claim theorems about the dispatch loop -/

/-- C1 (code_bug): the claim says every failure in any menu path —
including the Initialize-a-module path after a valid class selection — is
caught and the loop continues.  Against a registry holding one module
with one catalogued class, the operator inputs 2 (initialize), 1 (first
module), 1 (first class) make main.py evaluate
`class_content['class_ref']`, a key `_add_module_to_dict` never stores;
the KeyError is outside `except (ValueError, IndexError)` and the process
terminates. -/
theorem c1_initmenu_crash :
    runInputs demoRegC1 ⟨.mainMenu, []⟩ ["2", "1", "1"] =
      .crashed "KeyError: class_ref" := rfl

/-- C5 (corrected, counterexample): at the module-selection prompt over
the two-module registry demoReg2, the input 0 — not a listed 1-based
index — is not reported invalid: `int("0") - 1 = -1` selects the LAST
module m2 by Python negative indexing.  And the non-numeric input abc,
which is reported invalid, does not re-prompt the same state: the loop
continues at the main menu (a different navigation state). -/
theorem c5_counterexample :
    step demoReg2 ⟨.expModuleSelect, []⟩ "0" =
      (.cont ⟨.mainMenu, []⟩,
        [.out "=== Contents of Module: m2 ===",
         .out "No classes available to drill down further."]) ∧
    step demoReg2 ⟨.expModuleSelect, []⟩ "abc" =
      (.cont ⟨.mainMenu, []⟩,
        [.out "Invalid selection. Please select a valid module number."]) ∧
    Nav.mainMenu ≠ Nav.expModuleSelect :=
  ⟨rfl, rfl, fun h => Nav.noConfusion h⟩

/-- C5 (amended): at the module-selection prompts of menu choices 1 and 2
(listing n entries), non-numeric input, and numeric input k with k > n or
k ≤ -n, is reported invalid — after which the loop continues at the MAIN
menu prompt with the instance state unchanged, not at the same prompt;
numeric input k with k ≤ 0 whose Python index k - 1 still falls in range
is NOT reported invalid: it silently selects the entry at (1-based)
position n + k. -/
theorem c5_selection_behavior (reg : Registry) (inst : Insts) (i : String) :
    (pyInt i = none →
      stepExpModule reg inst i =
        (.cont ⟨.mainMenu, inst⟩,
          [.out "Invalid selection. Please select a valid module number."]) ∧
      stepInitModule reg inst i =
        (.cont ⟨.mainMenu, inst⟩,
          [.out "Invalid selection. Please select a valid module number."])) ∧
    (∀ k : Int, pyInt i = some k →
      ((((sortedModuleKeys reg).length : Int) < k ∨
          k ≤ -((sortedModuleKeys reg).length : Int)) →
        stepExpModule reg inst i =
          (.cont ⟨.mainMenu, inst⟩,
            [.out "Invalid selection. Please select a valid module number."])) ∧
      (∀ key, k ≤ 0 → 0 ≤ ((sortedModuleKeys reg).length : Int) + (k - 1) →
        (sortedModuleKeys reg).get?
            (((sortedModuleKeys reg).length : Int) + (k - 1)).toNat =
          some key →
        stepExpModule reg inst i = exploreModule reg inst key) ∧
      ((((dictKeys reg).length : Int) < k ∨
          k ≤ -((dictKeys reg).length : Int)) →
        stepInitModule reg inst i =
          (.cont ⟨.mainMenu, inst⟩,
            [.out "Invalid selection. Please select a valid module number."])) ∧
      (∀ m, k ≤ 0 → 0 ≤ ((dictKeys reg).length : Int) + (k - 1) →
        (dictKeys reg).get? (((dictKeys reg).length : Int) + (k - 1)).toNat =
          some m →
        stepInitModule reg inst i = initSelectModule reg inst m)) := by
  constructor
  · intro h
    constructor <;> simp [stepExpModule, stepInitModule, pySelect, h]
  · intro k hk
    have hsel : ∀ (xs : List String), pySelect xs i = pyListGet xs (k - 1) :=
      fun xs => by simp [pySelect, hk]
    refine ⟨?_, ?_, ?_, ?_⟩
    · intro hrange
      have hnone : pyListGet (sortedModuleKeys reg) (k - 1) = none := by
        rcases hrange with h | h
        · exact pyListGet_big_none _ _ (by omega)
        · exact pyListGet_neg_none _ _ (by omega) (by omega)
      simp [stepExpModule, hsel, hnone]
    · intro key hk0 h0 hget
      have hsome : pyListGet (sortedModuleKeys reg) (k - 1) = some key := by
        rw [pyListGet_neg_get _ _ (by omega) h0]
        exact hget
      simp [stepExpModule, hsel, hsome]
    · intro hrange
      have hnone : pyListGet (dictKeys reg) (k - 1) = none := by
        rcases hrange with h | h
        · exact pyListGet_big_none _ _ (by omega)
        · exact pyListGet_neg_none _ _ (by omega) (by omega)
      simp [stepInitModule, hsel, hnone]
    · intro m hk0 h0 hget
      have hsome : pyListGet (dictKeys reg) (k - 1) = some m := by
        rw [pyListGet_neg_get _ _ (by omega) h0]
        exact hget
      simp [stepInitModule, hsel, hsome]

/-- Witness for C5 at the concrete input 0 over demoReg2: position
2 + 0 = 2, the last module, is selected at both prompts. -/
theorem c5_selection_behavior_witness :
    pyInt "0" = some 0 ∧
    stepExpModule demoReg2 [] "0" = exploreModule demoReg2 [] "m2" ∧
    stepInitModule demoReg2 [] "0" = initSelectModule demoReg2 [] "m2" := by
  have h := (c5_selection_behavior demoReg2 [] "0").2 0 rfl
  exact ⟨rfl, h.2.1 "m2" (by decide) (by decide) rfl,
    h.2.2.2 "m2" (by decide) (by decide) rfl⟩

/-- C6 (corrected, counterexample): the only input that terminates the
process from the main menu is 5, yet at the nested module-selection state
of the five-module registry demoReg5 the same input 5 is interpreted
state-specifically — it explores module m5 and descends to its class
prompt instead of exiting.  So no reserved terminate input is recognized
at every state before state-specific interpretation. -/
theorem c6_counterexample :
    (step demoReg5 ⟨.mainMenu, []⟩ "5").1 = Next.exited ∧
    (step demoReg5 ⟨.expModuleSelect, []⟩ "5").1 =
      Next.cont ⟨.expClassSelect "m5", []⟩ ∧
    (step demoReg5 ⟨.expModuleSelect, []⟩ "5").1 ≠ Next.exited :=
  ⟨rfl, rfl, fun h => Next.noConfusion
    ((rfl : Next.cont ⟨Nav.expClassSelect "m5", []⟩ =
        (step demoReg5 ⟨.expModuleSelect, []⟩ "5").1).trans h)⟩

/-- C6 (amended): there are no reserved navigation inputs.  The dispatch
loop terminates cleanly on an input exactly when the state is the main
menu and the input is 5; at every other navigation state every input —
including 5 — receives the state-specific interpretation and never
exits. -/
theorem c6_exit_only_at_main_menu (reg : Registry) (st : MState)
    (i : String) :
    (step reg st i).1 = Next.exited ↔ (st.nav = Nav.mainMenu ∧ i = "5") := by
  obtain ⟨nav, inst⟩ := st
  cases nav with
  | mainMenu =>
    simp only [step]
    rw [stepMainMenu_exit_iff]
    simp
  | expModuleSelect =>
    exact iff_of_false (stepExpModule_fst_ne reg inst i)
      (fun hc => Nav.noConfusion hc.1)
  | expClassSelect k =>
    exact iff_of_false (stepExpClass_fst_ne reg inst k i)
      (fun hc => Nav.noConfusion hc.1)
  | initModuleSelect =>
    exact iff_of_false (stepInitModule_fst_ne reg inst i)
      (fun hc => Nav.noConfusion hc.1)
  | initClassSelect m =>
    exact iff_of_false (stepInitClass_fst_ne reg inst m i)
      (fun hc => Nav.noConfusion hc.1)
  | runClassSelect =>
    exact iff_of_false (stepRunClass_fst_ne reg inst i)
      (fun hc => Nav.noConfusion hc.1)
  | runMethodSelect c =>
    exact iff_of_false (stepRunMethod_fst_ne reg inst c i)
      (fun hc => Nav.noConfusion hc.1)
  | runArgs c m meth rem ags kws =>
    exact iff_of_false (stepRunArgs_fst_ne reg inst c m meth rem ags kws i)
      (fun hc => Nav.noConfusion hc.1)
  | helpModuleSelect =>
    exact iff_of_false (stepHelpModule_fst_ne reg inst i)
      (fun hc => Nav.noConfusion hc.1)

/-- Witness for C6: the exit input at the main menu does terminate. -/
theorem c6_exit_only_at_main_menu_witness :
    (step demoReg2 ⟨.mainMenu, []⟩ "5").1 = Next.exited :=
  (c6_exit_only_at_main_menu demoReg2 ⟨.mainMenu, []⟩ "5").mpr ⟨rfl, rfl⟩

/-- C7 (confirmed): for the catalogued method do = (a, b=5) of the
initialized object Worker, the argument collector prompts a as mandatory
(bare prompt, no default shown) and b as optional with default 5;
supplying x for a and accepting the default for b invokes the method with
positional args [x] and keyword args b=5, which Python binding resolves
to a=x, b=5. -/
theorem c7_round_trip :
    step [] ⟨.runMethodSelect "Worker", demoInstC7⟩ "1" =
      (.cont ⟨.runArgs "Worker" "do" demoMethodAB
          [⟨"a", none⟩, ⟨"b", some (.int 5)⟩] [] [], demoInstC7⟩,
        [.out "Enter arguments for the function (or press Enter to skip):",
         .out "Enter argument for a: "]) ∧
    step [] ⟨.runArgs "Worker" "do" demoMethodAB
        [⟨"a", none⟩, ⟨"b", some (.int 5)⟩] [] [], demoInstC7⟩ "x" =
      (.cont ⟨.runArgs "Worker" "do" demoMethodAB
          [⟨"b", some (.int 5)⟩] [.str "x"] [], demoInstC7⟩,
        [.out "Enter argument for b (default=5): "]) ∧
    step [] ⟨.runArgs "Worker" "do" demoMethodAB
        [⟨"b", some (.int 5)⟩] [.str "x"] [], demoInstC7⟩ "" =
      (.cont ⟨.mainMenu, demoInstC7⟩,
        [.call "Worker" "do" [.str "x"] [("b", .int 5)],
         .out "Result: No output returned."]) ∧
    bindParams demoMethodAB.params [.str "x"] [("b", .int 5)] =
      .ok [("a", .str "x"), ("b", .int 5)] :=
  ⟨rfl, rfl, rfl, rfl⟩

/-- C8 (corrected, counterexample): invoking the raising method go of the
initialized object W is caught and reported with the exception message,
but control continues at the MAIN menu prompt — not at the method menu
(the runMethodSelect state), which the claim asserts. -/
theorem c8_counterexample :
    step [] ⟨.runArgs "W" "go" demoBoom [⟨"a", none⟩] [] [], demoInstsB⟩
        "x" =
      (.cont ⟨.mainMenu, demoInstsB⟩,
        [.call "W" "go" [.str "x"] [],
         .out "Error executing the function: boom"]) ∧
    Nav.mainMenu ≠ Nav.runMethodSelect "W" :=
  ⟨rfl, fun h => Nav.noConfusion h⟩

/-- C8 (amended): any exception raised by the invoked method is caught
and reported to the operator as an execution error carrying the
exception message, and control returns to the MAIN menu prompt; a failed
invocation never terminates the dispatch loop (the step continues, it
neither exits nor crashes). -/
theorem c8_invocation_error_returns_main (reg : Registry) (inst : Insts)
    (cname mname : String) (meth : Method) (p : PyParam)
    (ags : List PyVal) (kws : List (String × PyVal)) (i msg : String)
    (h : meth.run (collectParam p i ags kws).1 (collectParam p i ags kws).2 =
      .error msg) :
    step reg ⟨.runArgs cname mname meth [p] ags kws, inst⟩ i =
      (.cont ⟨.mainMenu, inst⟩,
        [.call cname mname (collectParam p i ags kws).1
          (collectParam p i ags kws).2,
         .out ("Error executing the function: " ++ msg)]) := by
  simp [step, stepRunArgs, invokeMethod, h]

/-- Witness for C8 at the concrete raising method demoBoom. -/
theorem c8_invocation_error_returns_main_witness :
    demoBoom.run (collectParam ⟨"a", none⟩ "x" [] []).1
        (collectParam ⟨"a", none⟩ "x" [] []).2 = .error "boom" ∧
    step [] ⟨.runArgs "W" "go" demoBoom [⟨"a", none⟩] [] [], demoInstsB⟩
        "x" =
      (.cont ⟨.mainMenu, demoInstsB⟩,
        [.call "W" "go" (collectParam ⟨"a", none⟩ "x" [] []).1
          (collectParam ⟨"a", none⟩ "x" [] []).2,
         .out ("Error executing the function: " ++ "boom")]) :=
  ⟨rfl, c8_invocation_error_returns_main [] demoInstsB "W" "go" demoBoom
    ⟨"a", none⟩ [] [] "x" "boom" rfl⟩

end Ipncidr
